import Mathlib

/-!
Verification of the Harvest-Finance Stellar escrow backend.

The repository source under verification consists of the NestJS transport
pieces (`stellar.dto.ts`, `stellar.controller.ts`, `stellar.module.ts`) and
the integration test suite for `StellarService`.  The `StellarService`
implementation itself is not part of the provided sources, so every
definition that embeds a service-level operation is modelled from the
specification (each such definition says so in its doc comment); the DTO
validation layer is embedded directly from `stellar.dto.ts`.
-/

namespace HarvestFinance

/-! ## Stellar strkey (public key) structural validation -/

/-- Modelled from the spec: public keys are "35-byte encoded, ledger-native
address format" strings with "fixed-length, valid checksum encoding"
(strkey: 56 base32 characters decoding to version byte `G`, a 32-byte
payload and a CRC16-XModem checksum stored little-endian). Value of one
base32 character of the RFC 4648 alphabet. -/
def base32Val (c : Char) : Option Nat :=
  if 'A' ≤ c ∧ c ≤ 'Z' then some (c.toNat - 65)
  else if '2' ≤ c ∧ c ≤ '7' then some (c.toNat - 24)
  else none

/-- Decode a base32 character list into the natural number formed by its
5-bit groups, failing on any character outside the alphabet. -/
def base32DecodeNum (cs : List Char) : Option Nat :=
  cs.foldl
    (fun acc c =>
      match acc, base32Val c with
      | some a, some v => some (a * 32 + v)
      | _, _ => none)
    (some 0)

/-- Byte `i` (0-based, big-endian) of the 35-byte strkey payload encoded in
the natural number `n`. -/
def strkeyByte (n i : Nat) : Nat :=
  n >>> (8 * (34 - i)) % 256

/-- One byte step of CRC16-XModem (polynomial 0x1021, initial value 0). -/
def crc16Update (crc b : Nat) : Nat :=
  let c0 := Nat.xor crc (b * 256) % 65536
  (List.range 8).foldl
    (fun c _ =>
      if 32768 ≤ c then Nat.xor (c * 2 % 65536) 4129 else c * 2 % 65536)
    c0

/-- CRC16-XModem of a byte list. -/
def crc16 (bs : List Nat) : Nat :=
  bs.foldl crc16Update 0

/-- Modelled from the spec: structural validity of a Stellar ed25519 public
key string — 56 base32 characters, version byte 48 (`G`), and a correct
CRC16-XModem checksum over the first 33 bytes, stored little-endian in the
last two bytes.  Used by every operation that accepts a public key. -/
def isValidPublicKey (s : String) : Bool :=
  let cs := s.toList
  if cs.length = 56 then
    match base32DecodeNum cs with
    | none => false
    | some n =>
        strkeyByte n 0 = 48 ∧
        crc16 ((List.range 33).map (strkeyByte n)) =
          strkeyByte n 34 * 256 + strkeyByte n 33
  else false

/-! ## Decimal amount parsing -/

/-- Numeric value of a decimal digit character list (most significant
first); meaningful only when all characters are digits. -/
def natOfDigits (cs : List Char) : Nat :=
  cs.foldl (fun a c => a * 10 + (c.toNat - 48)) 0

/-- Is the character a decimal digit? -/
def isDecDigit (c : Char) : Bool :=
  '0' ≤ c ∧ c ≤ '9'

/-- Modelled from the spec: "amount parses to a positive decimal within the
asset's supported precision".  Parses a decimal string (integer part,
optional fraction of at most 7 digits — the ledger-native precision) to its
value in stroops (units of 10⁻⁷); `none` on malformed input. -/
def parseAmount (s : String) : Option Nat :=
  match s.toList.splitOn '.' with
  | [w] =>
      if w ≠ [] ∧ w.all isDecDigit then some (natOfDigits w * 10 ^ 7)
      else none
  | [w, f] =>
      if w ≠ [] ∧ f ≠ [] ∧ w.all isDecDigit ∧ f.all isDecDigit ∧ f.length ≤ 7 then
        some (natOfDigits w * 10 ^ 7 + natOfDigits f * 10 ^ (7 - f.length))
      else none
  | _ => none

/-- Does the amount string parse to a strictly positive decimal? -/
def positiveAmount (s : String) : Bool :=
  match parseAmount s with
  | some v => 0 < v
  | none => false

/-! ## Claim predicates -/

/-- Modelled from the spec: `ClaimPredicate` is "a tagged variant over
{Unconditional, BeforeAbsoluteTime(t), AfterAbsoluteTime(t), Not(p),
And(p,p), Or(p,p)}". -/
inductive ClaimPredicate where
  | unconditional : ClaimPredicate
  | beforeAbsoluteTime : Nat → ClaimPredicate
  | afterAbsoluteTime : Nat → ClaimPredicate
  | not : ClaimPredicate → ClaimPredicate
  | and : ClaimPredicate → ClaimPredicate → ClaimPredicate
  | or : ClaimPredicate → ClaimPredicate → ClaimPredicate
  deriving DecidableEq, Repr

/-- Modelled from the spec: predicate satisfaction at a ledger instant; a
claim predicate is "a boolean condition over ledger time evaluated at claim
time", with the deadline boundary itself satisfying the farmer's
before-or-equal predicate. -/
def ClaimPredicate.satisfiedAt : ClaimPredicate → Nat → Bool
  | .unconditional, _ => true
  | .beforeAbsoluteTime t, now => now ≤ t
  | .afterAbsoluteTime t, now => t < now
  | .not p, now => !(p.satisfiedAt now)
  | .and p q, now => p.satisfiedAt now && q.satisfiedAt now
  | .or p q, now => p.satisfiedAt now || q.satisfiedAt now

/-- Modelled from the spec: `buildEscrowPredicates(deadline)` — the farmer
claimant gets `BeforeAbsoluteTime(deadline)`, the buyer claimant gets
`Not(BeforeAbsoluteTime(deadline))`; a pure function of its input. -/
def buildEscrowPredicates (deadline : Nat) : ClaimPredicate × ClaimPredicate :=
  (.beforeAbsoluteTime deadline, .not (.beforeAbsoluteTime deadline))

/-! ## Error taxonomy -/

/-- Modelled from the spec (§7): the engine's typed error kinds. -/
inductive EngineError where
  | validationError : String → EngineError
  | notFoundError : EngineError
  | conflictError : EngineError
  | predicateUnsatisfiedError : EngineError
  | ledgerSubmissionError : String → EngineError
  | ledgerQueryError : EngineError
  deriving DecidableEq, Repr

/-! ## Ledger model -/

/-- Transaction status as reported by the ledger. -/
inductive TxStatus where
  | success : TxStatus
  | failed : TxStatus
  | pending : TxStatus
  deriving DecidableEq, Repr

/-- A confirmed transaction record on the modelled ledger. -/
structure TxRecord where
  hash : String
  status : TxStatus
  ledger : Nat
  resultCode : Option String
  deriving DecidableEq, Repr

/-- Modelled from the spec: a claimable balance's lifecycle state
{Open, Claimed}; it "transitions to Claimed exactly once". -/
inductive BalanceState where
  | stillOpen : BalanceState
  | claimed : BalanceState
  deriving DecidableEq, Repr

/-- Modelled from the spec: a claimable balance — ledger-assigned id, asset,
amount, sponsor, the (claimant public key, predicate) pairs, and its
lifecycle state. -/
structure ClaimableBalance where
  balanceId : String
  assetCode : String
  amount : String
  sponsor : String
  claimants : List (String × ClaimPredicate)
  state : BalanceState
  deriving DecidableEq, Repr

/-- Modelled from the spec: read-only projection of an on-ledger account —
balance, sequence number, thresholds (low/med/high), signers with weights. -/
structure AccountSnapshot where
  publicKey : String
  balance : String
  sequence : Nat
  thresholds : Nat × Nat × Nat
  signers : List (String × Nat)
  deriving DecidableEq, Repr

/-- Modelled from the spec: the external ledger's durable state — all
components are stateless, "all durable state lives on the external ledger".
`currentLedger` is the last closed ledger number (ledger numbers of
confirmed transactions are strictly positive). -/
structure LedgerState where
  currentLedger : Nat
  accounts : List AccountSnapshot
  balances : List ClaimableBalance
  transactions : List TxRecord
  deriving DecidableEq, Repr

/-- Modelled from the spec (§6): the Ledger Gateway capability surface, as
an observable trace element of each engine operation. -/
inductive NetworkCall where
  | getAccount : String → NetworkCall
  | getFeeStats : NetworkCall
  | submitTransaction : NetworkCall
  | getClaimableBalance : String → NetworkCall
  | getClaimableBalancesFor : String → NetworkCall
  | getTransaction : String → NetworkCall
  deriving DecidableEq, Repr

/-- Result of one engine operation: the typed result or failure, the trace
of ledger network calls the operation performed (in order), and the ledger
state after the operation. -/
structure Outcome (α : Type) where
  res : Except EngineError α
  calls : List NetworkCall
  post : LedgerState
  deriving Repr

/-- Look up a claimable balance by its id. -/
def lookupBalance (bs : List ClaimableBalance) (id : String) : Option ClaimableBalance :=
  bs.find? (fun b => b.balanceId = id)

/-- Look up an account snapshot by public key. -/
def lookupAccount (L : LedgerState) (pk : String) : Option AccountSnapshot :=
  L.accounts.find? (fun a => a.publicKey = pk)

/-- Predicate attached to a claimant of a balance, if that key is listed. -/
def lookupClaimant (cs : List (String × ClaimPredicate)) (pk : String) : Option ClaimPredicate :=
  (cs.find? (fun c => c.1 = pk)).map (fun c => c.2)

/-- Hash assigned by the modelled ledger to the next confirmed transaction. -/
def newTxHash (L : LedgerState) : String :=
  "tx-" ++ toString L.transactions.length

/-- Balance id assigned by the modelled ledger to the next claimable
balance (the spec: "the ledger returns it, not predictable client-side";
the model makes it a deterministic function of ledger state). -/
def newBalanceId (L : LedgerState) : String :=
  "bal-" ++ toString L.balances.length

/-! ## Service operations (Escrow Engine, MultiSig Provisioner, Inspector) -/

/-- Modelled from the spec: immutable configuration injected into the
service (network selection and the platform keypair). -/
structure StellarConfig where
  network : String
  platformPublicKey : String
  platformSecretKey : String
  deriving DecidableEq, Repr

/-- The `createEscrow` request, mirroring `CreateEscrowDto` at the service
boundary (asset defaults to the native asset when omitted). -/
structure EscrowRequest where
  farmerPublicKey : String
  buyerPublicKey : String
  amount : String
  assetCode : Option String
  assetIssuer : Option String
  deadlineUnixTimestamp : Nat
  orderId : String
  deriving DecidableEq, Repr

/-- The `createEscrow` success payload. -/
structure EscrowResult where
  balanceId : String
  transactionHash : String
  amount : String
  assetCode : String
  farmerPublicKey : String
  buyerPublicKey : String
  deriving DecidableEq, Repr

/-- The `releasePayment` request, mirroring `ReleasePaymentDto`. -/
structure ReleaseRequest where
  balanceId : String
  farmerPublicKey : String
  farmerSecretKey : String
  deriving DecidableEq, Repr

/-- The `refundEscrow` request, mirroring `RefundDto`. -/
structure RefundRequest where
  balanceId : String
  buyerPublicKey : String
  buyerSecretKey : String
  deriving DecidableEq, Repr

/-- The `setupMultiSigAccount` request, mirroring `SetupMultiSigDto`. -/
structure MultiSigRequest where
  primaryPublicKey : String
  cosignerPublicKeys : List String
  threshold : Nat
  sourceSecretKey : String
  deriving DecidableEq, Repr

/-- Claim / multisig success payload: status string and transaction hash. -/
structure ClaimResult where
  status : String
  transactionHash : String
  deriving DecidableEq, Repr

/-- Modelled from the spec: `TransactionOutcome` — status, hash, ledger
number if confirmed, raw result code if failed. -/
structure TransactionOutcome where
  status : TxStatus
  transactionHash : String
  ledger : Option Nat
  resultCode : Option String
  deriving DecidableEq, Repr

/-- Modelled from the spec: `createEscrow` — preconditions checked in
order (farmer key, buyer key, positive amount, deadline strictly in the
future, non-empty orderId), each failing with a `ValidationError` naming
the offending field before any network call; then one ledger round trip
(fetch platform account, fetch fees, submit a claimable-balance-creation
transaction with the two predicates of `buildEscrowPredicates`). -/
def createEscrow (cfg : StellarConfig) (L : LedgerState) (now : Nat)
    (req : EscrowRequest) : Outcome EscrowResult :=
  if isValidPublicKey req.farmerPublicKey then
    if isValidPublicKey req.buyerPublicKey then
      if positiveAmount req.amount then
        if now < req.deadlineUnixTimestamp then
          if req.orderId = "" then ⟨.error (.validationError "orderId"), [], L⟩
          else
            match lookupAccount L cfg.platformPublicKey with
            | none =>
                ⟨.error (.ledgerSubmissionError "source account not found"),
                 [.getAccount cfg.platformPublicKey], L⟩
            | some _ =>
                let pair := buildEscrowPredicates req.deadlineUnixTimestamp
                let txHash := newTxHash L
                let balId := newBalanceId L
                let asset := req.assetCode.getD "XLM"
                ⟨.ok { balanceId := balId, transactionHash := txHash,
                       amount := req.amount, assetCode := asset,
                       farmerPublicKey := req.farmerPublicKey,
                       buyerPublicKey := req.buyerPublicKey },
                 [.getAccount cfg.platformPublicKey, .getFeeStats, .submitTransaction],
                 { currentLedger := L.currentLedger + 1,
                   accounts :=
                     L.accounts.map (fun a =>
                       if a.publicKey = cfg.platformPublicKey then
                         { a with sequence := a.sequence + 1 }
                       else a),
                   balances :=
                     L.balances ++
                       [{ balanceId := balId, assetCode := asset,
                          amount := req.amount,
                          sponsor := cfg.platformPublicKey,
                          claimants := [(req.farmerPublicKey, pair.1),
                                        (req.buyerPublicKey, pair.2)],
                          state := .stillOpen }],
                   transactions :=
                     L.transactions ++
                       [{ hash := txHash, status := .success,
                          ledger := L.currentLedger + 1, resultCode := none }] }⟩
        else ⟨.error (.validationError "deadlineUnixTimestamp"), [], L⟩
      else ⟨.error (.validationError "amount"), [], L⟩
    else ⟨.error (.validationError "buyerPublicKey"), [], L⟩
  else ⟨.error (.validationError "farmerPublicKey"), [], L⟩

/-- Modelled from the spec: the shared claim path of `releasePayment` and
`refundEscrow` — validate the claimant key structurally (before any network
call), query the balance just before building the claim (`NotFoundError` if
absent), surface the ledger's "already claimed" outcome as `ConflictError`,
surface a claim outside its valid time window as
`PredicateUnsatisfiedError`, and otherwise submit the claim, which marks
the balance Claimed exactly once. -/
def claimBalanceOp (L : LedgerState) (now : Nat)
    (balanceId claimantKey keyField : String) : Outcome ClaimResult :=
  if isValidPublicKey claimantKey then
    match lookupBalance L.balances balanceId with
    | none => ⟨.error .notFoundError, [.getClaimableBalance balanceId], L⟩
    | some b =>
        match b.state with
        | .claimed =>
            ⟨.error .conflictError, [.getClaimableBalance balanceId], L⟩
        | .stillOpen =>
            match lookupClaimant b.claimants claimantKey with
            | none =>
                ⟨.error .predicateUnsatisfiedError,
                 [.getClaimableBalance balanceId, .submitTransaction], L⟩
            | some p =>
                if p.satisfiedAt now then
                  ⟨.ok { status := "success", transactionHash := newTxHash L },
                   [.getClaimableBalance balanceId, .submitTransaction],
                   { currentLedger := L.currentLedger + 1,
                     accounts := L.accounts,
                     balances :=
                       L.balances.map (fun c =>
                         if c.balanceId = balanceId then { c with state := .claimed }
                         else c),
                     transactions :=
                       L.transactions ++
                         [{ hash := newTxHash L, status := .success,
                            ledger := L.currentLedger + 1, resultCode := none }] }⟩
                else
                  ⟨.error .predicateUnsatisfiedError,
                   [.getClaimableBalance balanceId, .submitTransaction], L⟩
  else ⟨.error (.validationError keyField), [], L⟩

/-- Modelled from the spec: `releasePayment` — the farmer claims the
balance. -/
def releasePayment (L : LedgerState) (now : Nat) (req : ReleaseRequest) :
    Outcome ClaimResult :=
  claimBalanceOp L now req.balanceId req.farmerPublicKey "farmerPublicKey"

/-- Modelled from the spec: `refundEscrow` — symmetric to release, the
buyer claims using the complementary predicate. -/
def refundEscrow (L : LedgerState) (now : Nat) (req : RefundRequest) :
    Outcome ClaimResult :=
  claimBalanceOp L now req.balanceId req.buyerPublicKey "buyerPublicKey"

/-- Modelled from the spec: the multisig feasibility precondition
`threshold ≤ 1 + |cosignerPublicKeys|` (primary signer counts as weight 1
plus each cosigner at weight 1). -/
def multiSigFeasible (req : MultiSigRequest) : Bool :=
  req.threshold ≤ 1 + req.cosignerPublicKeys.length

/-- Modelled from the spec: `setupMultiSigAccount` — the feasibility
precondition is checked before building any transaction (`ValidationError`
without any ledger round trip on violation); then the primary key is
validated structurally, the source account fetched, and one atomic
transaction adds each cosigner at weight 1 and sets low/med/high thresholds
to `threshold`. -/
def setupMultiSigAccount (L : LedgerState) (req : MultiSigRequest) :
    Outcome ClaimResult :=
  if multiSigFeasible req then
    if isValidPublicKey req.primaryPublicKey then
      match lookupAccount L req.primaryPublicKey with
      | none =>
          ⟨.error (.ledgerSubmissionError "source account not found"),
           [.getAccount req.primaryPublicKey], L⟩
      | some _ =>
          ⟨.ok { status := "success", transactionHash := newTxHash L },
           [.getAccount req.primaryPublicKey, .submitTransaction],
           { currentLedger := L.currentLedger + 1,
             accounts :=
               L.accounts.map (fun a =>
                 if a.publicKey = req.primaryPublicKey then
                   { a with
                     sequence := a.sequence + 1,
                     thresholds := (req.threshold, req.threshold, req.threshold),
                     signers :=
                       a.signers ++ req.cosignerPublicKeys.map (fun k => (k, 1)) }
                 else a),
             balances := L.balances,
             transactions :=
               L.transactions ++
                 [{ hash := newTxHash L, status := .success,
                    ledger := L.currentLedger + 1, resultCode := none }] }⟩
    else ⟨.error (.validationError "primaryPublicKey"), [], L⟩
  else ⟨.error (.validationError "threshold"), [], L⟩

/-- Modelled from the spec: `getAccountInfo` — `ValidationError` if the
public key is structurally malformed (checked before any network call),
`NotFoundError` if the account does not exist on-ledger, otherwise the
account snapshot. -/
def getAccountInfo (L : LedgerState) (publicKey : String) :
    Outcome AccountSnapshot :=
  if isValidPublicKey publicKey then
    match lookupAccount L publicKey with
    | none => ⟨.error .notFoundError, [.getAccount publicKey], L⟩
    | some a => ⟨.ok a, [.getAccount publicKey], L⟩
  else ⟨.error (.validationError "publicKey"), [], L⟩

/-- Modelled from the spec: `getClaimableBalances` — read-only query of all
balances where the key appears as a claimant, in ledger order; the key is
validated structurally before the network call. -/
def getClaimableBalances (L : LedgerState) (publicKey : String) :
    Outcome (List ClaimableBalance) :=
  if isValidPublicKey publicKey then
    ⟨.ok (L.balances.filter (fun b => b.claimants.any (fun c => c.1 = publicKey))),
     [.getClaimableBalancesFor publicKey], L⟩
  else ⟨.error (.validationError "publicKey"), [], L⟩

/-- Modelled from the spec: `getTransactionStatus` — `NotFoundError` if the
hash is unknown to the ledger; otherwise the transaction outcome with its
ledger number. -/
def getTransactionStatus (L : LedgerState) (h : String) :
    Outcome TransactionOutcome :=
  match L.transactions.find? (fun t => t.hash = h) with
  | none => ⟨.error .notFoundError, [.getTransaction h], L⟩
  | some t =>
      ⟨.ok { status := t.status, transactionHash := t.hash,
             ledger := some t.ledger, resultCode := t.resultCode },
       [.getTransaction h], L⟩

/-- An operation result is a validation failure (a `ValidationError` naming
some field). -/
def isValidationFailure {α : Type} (r : Except EngineError α) : Prop :=
  ∃ f, r = .error (.validationError f)

/-! ## DTO transport-level validation (embedded from `stellar.dto.ts`) -/

/-- class-validator `IsNotEmpty`: the string is not empty. -/
def isNotEmpty (s : String) : Bool :=
  s ≠ ""

/-- class-validator `Length(lo, hi)`: the string length lies in the
inclusive range. -/
def hasLength (lo hi : Nat) (s : String) : Bool :=
  lo ≤ s.length ∧ s.length ≤ hi

/-- class-validator `Min(m)`: the number is at least `m`. -/
def minCheck (m v : Int) : Bool :=
  m ≤ v

/-- Embedded from `stellar.dto.ts`: `CreateEscrowDto` as it arrives at the
transport boundary — `IsString`/`IsNumber` are captured by the field types,
`IsOptional` by `Option`. -/
structure CreateEscrowDto where
  farmerPublicKey : String
  buyerPublicKey : String
  amount : String
  assetCode : Option String
  assetIssuer : Option String
  deadlineUnixTimestamp : Int
  orderId : String
  deriving DecidableEq, Repr

/-- Embedded from `stellar.dto.ts`: the decorator checks of
`CreateEscrowDto` — `IsNotEmpty ∧ Length(56,56)` on both keys,
`IsNotEmpty` on `amount` and `orderId`, no check on the optional asset
fields, and `Min(0)` (only) on `deadlineUnixTimestamp`. -/
def createEscrowDtoValid (d : CreateEscrowDto) : Bool :=
  isNotEmpty d.farmerPublicKey && hasLength 56 56 d.farmerPublicKey &&
  (isNotEmpty d.buyerPublicKey && hasLength 56 56 d.buyerPublicKey) &&
  isNotEmpty d.amount &&
  minCheck 0 d.deadlineUnixTimestamp &&
  isNotEmpty d.orderId

/-- An arbitrary JSON value as it can appear in a request body field that
carries no validation decorator. -/
inductive JsValue where
  | strVal : String → JsValue
  | numVal : Int → JsValue
  | boolVal : Bool → JsValue
  | nullVal : JsValue
  | arrVal : List JsValue → JsValue

/-- Embedded from `stellar.dto.ts`: `SetupMultiSigDto` — the
`cosignerPublicKeys` field carries no decorator, so at the transport
boundary it can be missing (`none`) or hold any JSON value at all. -/
structure SetupMultiSigDto where
  primaryPublicKey : String
  cosignerPublicKeys : Option JsValue
  threshold : Int
  sourceSecretKey : String

/-- Embedded from `stellar.dto.ts`: the decorator checks of
`SetupMultiSigDto` — `IsNotEmpty ∧ Length(56,56)` on the primary key,
`Min(1)` on `threshold`, `IsNotEmpty` on the secret key, and no check at
all on `cosignerPublicKeys`. -/
def setupMultiSigDtoValid (d : SetupMultiSigDto) : Bool :=
  isNotEmpty d.primaryPublicKey && hasLength 56 56 d.primaryPublicKey &&
  minCheck 1 d.threshold &&
  isNotEmpty d.sourceSecretKey

/-! ## Concrete sample data

Two structurally valid Stellar testnet public keys (56-character strkeys
with correct CRC16 checksums) and small ledger states used to exercise the
operations on concrete inputs. -/

/-- A structurally valid Stellar ed25519 public key (farmer role). -/
def demoFarmerKey : String :=
  "GAAZI4TCR3TY5OJHCTJC2A4QSY6CJWJH5IAJTGKIN2ER7LBNVKOCCWN7"

/-- A structurally valid Stellar ed25519 public key (buyer role). -/
def demoBuyerKey : String :=
  "GCEZWKCA5VLDNRLN3RPRJMRZOX3Z6G5CHCGSNFHEYVXM3XOJMDS674JZ"

/-- Sample service configuration (platform keypair and network). -/
def demoConfig : StellarConfig :=
  { network := "testnet", platformPublicKey := "PLATFORM",
    platformSecretKey := "PLATFORM_SECRET" }

/-- Sample on-ledger platform account. -/
def demoPlatformAccount : AccountSnapshot :=
  { publicKey := "PLATFORM", balance := "10000", sequence := 1,
    thresholds := (0, 0, 0), signers := [("PLATFORM", 1)] }

/-- Sample ledger holding only the funded platform account. -/
def baseLedger : LedgerState :=
  { currentLedger := 1, accounts := [demoPlatformAccount], balances := [],
    transactions := [] }

/-- Sample escrow balance with deadline 100, already claimed. -/
def demoClaimedBalance : ClaimableBalance :=
  { balanceId := "bal-0", assetCode := "XLM", amount := "10",
    sponsor := "PLATFORM",
    claimants := [(demoFarmerKey, (buildEscrowPredicates 100).1),
                  (demoBuyerKey, (buildEscrowPredicates 100).2)],
    state := .claimed }

/-- Sample escrow balance with deadline 100, still open. -/
def demoOpenBalance : ClaimableBalance :=
  { demoClaimedBalance with state := .stillOpen }

/-- Sample ledger holding the already-claimed escrow balance. -/
def claimedLedger : LedgerState :=
  { baseLedger with balances := [demoClaimedBalance] }

/-- Sample ledger holding the still-open escrow balance. -/
def openLedger : LedgerState :=
  { baseLedger with balances := [demoOpenBalance] }

/-- A fully valid sample escrow request (deadline 3600, amount 10). -/
def demoEscrowRequest : EscrowRequest :=
  { farmerPublicKey := demoFarmerKey, buyerPublicKey := demoBuyerKey,
    amount := "10", assetCode := none, assetIssuer := none,
    deadlineUnixTimestamp := 3600, orderId := "order-1" }

/-- An escrow request whose deadline is in the past and whose farmer key is
also malformed. -/
def pastDeadlineBadKeyRequest : EscrowRequest :=
  { farmerPublicKey := "INVALID", buyerPublicKey := "INVALID",
    amount := "10", assetCode := none, assetIssuer := none,
    deadlineUnixTimestamp := 0, orderId := "order-2" }

/-- An otherwise valid escrow request with amount `"0"`. -/
def zeroAmountRequest : EscrowRequest :=
  { demoEscrowRequest with amount := "0", orderId := "order-3" }

/-- An otherwise valid escrow request whose deadline has passed. -/
def pastDeadlineRequest : EscrowRequest :=
  { demoEscrowRequest with deadlineUnixTimestamp := 10, orderId := "order-4" }

/-! ## Theorems -/

set_option maxRecDepth 80000

/-- Helper: `find?` over a list extended on the right finds the appended
element when nothing in the prefix matches. -/
theorem find?_append_singleton {α : Type} (p : α → Bool) (xs : List α) (x : α)
    (h : ∀ y ∈ xs, p y = false) (hx : p x = true) :
    List.find? p (xs ++ [x]) = some x := by
  induction xs with
  | nil => simp [List.find?, hx]
  | cons a as ih =>
      have ha : p a = false := h a (List.mem_cons_self a as)
      simp only [List.cons_append, List.find?, ha]
      exact ih fun y hy => h y (List.mem_cons_of_mem a hy)

/-- C1: `buildEscrowPredicates(deadline)` returns a farmer predicate
satisfied exactly at instants at or before the deadline and a buyer
predicate satisfied exactly at instants strictly after it; at every instant
exactly one of the two is satisfied, and the boundary instant `deadline`
satisfies the farmer's predicate. -/
theorem buildEscrowPredicates_complementary (deadline t : Nat) :
    ((buildEscrowPredicates deadline).1.satisfiedAt t = true ↔ t ≤ deadline) ∧
    ((buildEscrowPredicates deadline).2.satisfiedAt t = true ↔ deadline < t) ∧
    ((buildEscrowPredicates deadline).1.satisfiedAt t = true ↔
      ¬ (buildEscrowPredicates deadline).2.satisfiedAt t = true) ∧
    (buildEscrowPredicates deadline).1.satisfiedAt deadline = true := by
  simp [buildEscrowPredicates, ClaimPredicate.satisfiedAt]

/-- C2: a second claim attempt on an already-Claimed balance, whether via
`releasePayment` or `refundEscrow`, fails with `ConflictError` — an error
distinguishable from a not-found, predicate-unsatisfied, generic
submission, or validation failure. -/
theorem secondClaim_conflictError (L : LedgerState) (now : Nat)
    (rel : ReleaseRequest) (ref : RefundRequest) (b b2 : ClaimableBalance)
    (hf : isValidPublicKey rel.farmerPublicKey = true)
    (hb : isValidPublicKey ref.buyerPublicKey = true)
    (h1 : lookupBalance L.balances rel.balanceId = some b)
    (h2 : b.state = .claimed)
    (h3 : lookupBalance L.balances ref.balanceId = some b2)
    (h4 : b2.state = .claimed) :
    (releasePayment L now rel).res = .error .conflictError ∧
    (refundEscrow L now ref).res = .error .conflictError ∧
    EngineError.conflictError ≠ EngineError.notFoundError ∧
    EngineError.conflictError ≠ EngineError.predicateUnsatisfiedError ∧
    (∀ c, EngineError.conflictError ≠ EngineError.ledgerSubmissionError c) ∧
    (∀ f, EngineError.conflictError ≠ EngineError.validationError f) := by
  refine ⟨?_, ?_, by simp, by simp, by simp, by simp⟩
  · simp [releasePayment, claimBalanceOp, hf, h1, h2]
  · simp [refundEscrow, claimBalanceOp, hb, h3, h4]

/-- C2 witness: on a concrete ledger whose only escrow balance is already
claimed, both claim operations report `ConflictError`. -/
theorem secondClaim_conflictError_witness :
    (releasePayment claimedLedger 50 ⟨"bal-0", demoFarmerKey, "SF"⟩).res =
      .error .conflictError ∧
    (refundEscrow claimedLedger 50 ⟨"bal-0", demoBuyerKey, "SB"⟩).res =
      .error .conflictError ∧
    EngineError.conflictError ≠ EngineError.notFoundError ∧
    EngineError.conflictError ≠ EngineError.predicateUnsatisfiedError ∧
    (∀ c, EngineError.conflictError ≠ EngineError.ledgerSubmissionError c) ∧
    (∀ f, EngineError.conflictError ≠ EngineError.validationError f) :=
  secondClaim_conflictError claimedLedger 50
    ⟨"bal-0", demoFarmerKey, "SF"⟩ ⟨"bal-0", demoBuyerKey, "SB"⟩
    demoClaimedBalance demoClaimedBalance
    (by decide) (by decide) (by decide) (by decide) (by decide) (by decide)

/-- C3: against a still-open escrow balance carrying the predicates of
`buildEscrowPredicates`, a buyer `refundEscrow` at or before the deadline
and a farmer `releasePayment` strictly after the deadline both fail with
`PredicateUnsatisfiedError`, which is distinct from `ConflictError`. -/
theorem claimOutsideWindow_predicateUnsatisfied (L : LedgerState)
    (deadline t1 t2 : Nat) (farmerPk buyerPk balId sf sb : String)
    (b : ClaimableBalance)
    (hfv : isValidPublicKey farmerPk = true)
    (hbv : isValidPublicKey buyerPk = true)
    (hne : farmerPk ≠ buyerPk)
    (hlk : lookupBalance L.balances balId = some b)
    (hopen : b.state = .stillOpen)
    (hcl : b.claimants = [(farmerPk, (buildEscrowPredicates deadline).1),
                          (buyerPk, (buildEscrowPredicates deadline).2)])
    (hEarly : t1 ≤ deadline) (hLate : deadline < t2) :
    (refundEscrow L t1 ⟨balId, buyerPk, sb⟩).res =
      .error .predicateUnsatisfiedError ∧
    (releasePayment L t2 ⟨balId, farmerPk, sf⟩).res =
      .error .predicateUnsatisfiedError ∧
    EngineError.predicateUnsatisfiedError ≠ EngineError.conflictError := by
  refine ⟨?_, ?_, by simp⟩
  · have hne2 : (farmerPk = buyerPk) = False := by simp [hne]
    simp [refundEscrow, claimBalanceOp, hbv, hlk, hopen, hcl, lookupClaimant,
      List.find?, hne2, buildEscrowPredicates, ClaimPredicate.satisfiedAt,
      hEarly]
  · have h6 : ¬ t2 ≤ deadline := by omega
    simp [releasePayment, claimBalanceOp, hfv, hlk, hopen, hcl, lookupClaimant,
      List.find?, buildEscrowPredicates, ClaimPredicate.satisfiedAt, h6]

/-- C3 witness: on a concrete open escrow with deadline 100, a refund at
instant 50 and a release at instant 200 both fail with
`PredicateUnsatisfiedError`. -/
theorem claimOutsideWindow_predicateUnsatisfied_witness :
    (refundEscrow openLedger 50 ⟨"bal-0", demoBuyerKey, "SB"⟩).res =
      .error .predicateUnsatisfiedError ∧
    (releasePayment openLedger 200 ⟨"bal-0", demoFarmerKey, "SF"⟩).res =
      .error .predicateUnsatisfiedError ∧
    EngineError.predicateUnsatisfiedError ≠ EngineError.conflictError := by
  have h := claimOutsideWindow_predicateUnsatisfied openLedger 100 50 200
    demoFarmerKey demoBuyerKey "bal-0" "SF" "SB" demoOpenBalance
    (by decide) (by decide) (by decide) (by decide) (by decide) (by decide)
    (by decide) (by decide)
  exact h

/-- C4 counterexample: the claim quantifies over every `EscrowRequest`
whose deadline is not in the future, but validation runs in spec order
(keys, amount, deadline), so a past-deadline request whose farmer key is
also malformed fails naming `farmerPublicKey`, not the deadline field. -/
theorem createEscrow_pastDeadline_counterexample :
    pastDeadlineBadKeyRequest.deadlineUnixTimestamp ≤ 100 ∧
    (createEscrow demoConfig baseLedger 100 pastDeadlineBadKeyRequest).res =
      .error (.validationError "farmerPublicKey") ∧
    "farmerPublicKey" ≠ "deadlineUnixTimestamp" :=
  ⟨by decide, by rfl, by decide⟩

/-- C4 (amended): for every `EscrowRequest` that passes the earlier
validation steps (structurally valid keys, positive amount), a deadline not
strictly in the future makes `createEscrow` fail with a `ValidationError`
naming `deadlineUnixTimestamp`, with no network call performed and the
ledger unchanged. -/
theorem createEscrow_pastDeadline_validationError (cfg : StellarConfig)
    (L : LedgerState) (now : Nat) (req : EscrowRequest)
    (h1 : isValidPublicKey req.farmerPublicKey = true)
    (h2 : isValidPublicKey req.buyerPublicKey = true)
    (h3 : positiveAmount req.amount = true)
    (h4 : req.deadlineUnixTimestamp ≤ now) :
    createEscrow cfg L now req =
      ⟨.error (.validationError "deadlineUnixTimestamp"), [], L⟩ := by
  have h5 : ¬ now < req.deadlineUnixTimestamp := by omega
  simp [createEscrow, h1, h2, h3, h5]

/-- C4 witness: a concrete otherwise-valid request with deadline 10 at
wall-clock 100 fails naming `deadlineUnixTimestamp` with no network call. -/
theorem createEscrow_pastDeadline_validationError_witness :
    createEscrow demoConfig baseLedger 100 pastDeadlineRequest =
      ⟨.error (.validationError "deadlineUnixTimestamp"), [], baseLedger⟩ :=
  createEscrow_pastDeadline_validationError demoConfig baseLedger 100
    pastDeadlineRequest (by decide) (by decide) (by decide) (by decide)

/-- C5: for every `EscrowRequest` whose amount does not parse to a strictly
positive decimal, `createEscrow` fails with a `ValidationError` (naming
some field), with no network call performed and the ledger unchanged. -/
theorem createEscrow_nonpositiveAmount_validationError (cfg : StellarConfig)
    (L : LedgerState) (now : Nat) (req : EscrowRequest)
    (h : positiveAmount req.amount = false) :
    isValidationFailure (createEscrow cfg L now req).res ∧
    (createEscrow cfg L now req).calls = [] ∧
    (createEscrow cfg L now req).post = L := by
  by_cases h1 : isValidPublicKey req.farmerPublicKey
  · by_cases h2 : isValidPublicKey req.buyerPublicKey
    · refine ⟨⟨"amount", ?_⟩, ?_, ?_⟩ <;> simp [createEscrow, h1, h2, h]
    · refine ⟨⟨"buyerPublicKey", ?_⟩, ?_, ?_⟩ <;> simp [createEscrow, h1, h2]
  · refine ⟨⟨"farmerPublicKey", ?_⟩, ?_, ?_⟩ <;> simp [createEscrow, h1]

/-- C5 witness: the concrete zero-amount request (amount `"0"`, everything
else valid) fails validation with no network call. -/
theorem createEscrow_nonpositiveAmount_validationError_witness :
    isValidationFailure (createEscrow demoConfig baseLedger 0 zeroAmountRequest).res ∧
    (createEscrow demoConfig baseLedger 0 zeroAmountRequest).calls = [] ∧
    (createEscrow demoConfig baseLedger 0 zeroAmountRequest).post = baseLedger :=
  createEscrow_nonpositiveAmount_validationError demoConfig baseLedger 0
    zeroAmountRequest (by decide)

/-- C6: `setupMultiSigAccount` with `threshold > 1 + |cosignerPublicKeys|`
fails with a `ValidationError` and performs no ledger round trip (empty
call trace, ledger unchanged); when `threshold ≤ 1 + |cosignerPublicKeys|`
the feasibility precondition passes. -/
theorem setupMultiSig_threshold_check (L : LedgerState) (req : MultiSigRequest) :
    (1 + req.cosignerPublicKeys.length < req.threshold →
      setupMultiSigAccount L req = ⟨.error (.validationError "threshold"), [], L⟩) ∧
    (req.threshold ≤ 1 + req.cosignerPublicKeys.length →
      multiSigFeasible req = true) := by
  constructor
  · intro h
    have hf : ¬ multiSigFeasible req = true := by
      simp [multiSigFeasible]; omega
    simp [setupMultiSigAccount, hf]
  · intro h
    simpa [multiSigFeasible] using h

/-- C6 witness: a threshold-5 request with one cosigner fails with the
threshold `ValidationError` and an empty call trace, while the analogous
threshold-2 request passes the feasibility precondition. -/
theorem setupMultiSig_threshold_check_witness :
    setupMultiSigAccount baseLedger
        ⟨demoFarmerKey, [demoBuyerKey], 5, "SRC"⟩ =
      ⟨.error (.validationError "threshold"), [], baseLedger⟩ ∧
    multiSigFeasible ⟨demoFarmerKey, [demoBuyerKey], 2, "SRC"⟩ = true :=
  ⟨(setupMultiSig_threshold_check baseLedger
      ⟨demoFarmerKey, [demoBuyerKey], 5, "SRC"⟩).1 (by decide),
   (setupMultiSig_threshold_check baseLedger
      ⟨demoFarmerKey, [demoBuyerKey], 2, "SRC"⟩).2 (by decide)⟩

/-- C7: every operation that accepts a public key — `createEscrow` (either
claimant key), `releasePayment`, `refundEscrow`, `setupMultiSigAccount`,
`getAccountInfo`, `getClaimableBalances` — rejects a structurally invalid
public key with a `ValidationError` and an empty network-call trace. -/
theorem invalidPublicKey_rejected_everywhere (pk : String)
    (hpk : isValidPublicKey pk = false) :
    (∀ cfg L now (req : EscrowRequest),
      req.farmerPublicKey = pk ∨ req.buyerPublicKey = pk →
      isValidationFailure (createEscrow cfg L now req).res ∧
        (createEscrow cfg L now req).calls = []) ∧
    (∀ L now (req : ReleaseRequest), req.farmerPublicKey = pk →
      (releasePayment L now req).res = .error (.validationError "farmerPublicKey") ∧
        (releasePayment L now req).calls = []) ∧
    (∀ L now (req : RefundRequest), req.buyerPublicKey = pk →
      (refundEscrow L now req).res = .error (.validationError "buyerPublicKey") ∧
        (refundEscrow L now req).calls = []) ∧
    (∀ L (req : MultiSigRequest), req.primaryPublicKey = pk →
      isValidationFailure (setupMultiSigAccount L req).res ∧
        (setupMultiSigAccount L req).calls = []) ∧
    (∀ L, (getAccountInfo L pk).res = .error (.validationError "publicKey") ∧
      (getAccountInfo L pk).calls = []) ∧
    (∀ L, (getClaimableBalances L pk).res = .error (.validationError "publicKey") ∧
      (getClaimableBalances L pk).calls = []) := by
  refine ⟨?_, ?_, ?_, ?_, ?_, ?_⟩
  · rintro cfg L now req (hk | hk)
    · rw [← hk] at hpk
      refine ⟨⟨"farmerPublicKey", ?_⟩, ?_⟩ <;> simp [createEscrow, hpk]
    · rw [← hk] at hpk
      by_cases h1 : isValidPublicKey req.farmerPublicKey
      · refine ⟨⟨"buyerPublicKey", ?_⟩, ?_⟩ <;> simp [createEscrow, h1, hpk]
      · refine ⟨⟨"farmerPublicKey", ?_⟩, ?_⟩ <;> simp [createEscrow, h1]
  · intro L now req hk
    rw [← hk] at hpk
    constructor <;> simp [releasePayment, claimBalanceOp, hpk]
  · intro L now req hk
    rw [← hk] at hpk
    constructor <;> simp [refundEscrow, claimBalanceOp, hpk]
  · intro L req hk
    rw [← hk] at hpk
    by_cases hf : multiSigFeasible req
    · refine ⟨⟨"primaryPublicKey", ?_⟩, ?_⟩ <;> simp [setupMultiSigAccount, hf, hpk]
    · refine ⟨⟨"threshold", ?_⟩, ?_⟩ <;> simp [setupMultiSigAccount, hf]
  · intro L
    constructor <;> simp [getAccountInfo, hpk]
  · intro L
    constructor <;> simp [getClaimableBalances, hpk]

/-- C7 witness: the malformed key `"INVALID"` is rejected by all six
operations on concrete requests, each with an empty call trace. -/
theorem invalidPublicKey_rejected_everywhere_witness :
    (isValidationFailure
        (createEscrow demoConfig baseLedger 0
          { demoEscrowRequest with farmerPublicKey := "INVALID" }).res ∧
      (createEscrow demoConfig baseLedger 0
          { demoEscrowRequest with farmerPublicKey := "INVALID" }).calls = []) ∧
    ((releasePayment baseLedger 0 ⟨"bal-0", "INVALID", "SF"⟩).res =
        .error (.validationError "farmerPublicKey") ∧
      (releasePayment baseLedger 0 ⟨"bal-0", "INVALID", "SF"⟩).calls = []) ∧
    ((refundEscrow baseLedger 0 ⟨"bal-0", "INVALID", "SB"⟩).res =
        .error (.validationError "buyerPublicKey") ∧
      (refundEscrow baseLedger 0 ⟨"bal-0", "INVALID", "SB"⟩).calls = []) ∧
    (isValidationFailure
        (setupMultiSigAccount baseLedger ⟨"INVALID", [], 1, "SRC"⟩).res ∧
      (setupMultiSigAccount baseLedger ⟨"INVALID", [], 1, "SRC"⟩).calls = []) ∧
    ((getAccountInfo baseLedger "INVALID").res =
        .error (.validationError "publicKey") ∧
      (getAccountInfo baseLedger "INVALID").calls = []) ∧
    ((getClaimableBalances baseLedger "INVALID").res =
        .error (.validationError "publicKey") ∧
      (getClaimableBalances baseLedger "INVALID").calls = []) := by
  have h := invalidPublicKey_rejected_everywhere "INVALID" (by decide)
  exact ⟨h.1 demoConfig baseLedger 0
          { demoEscrowRequest with farmerPublicKey := "INVALID" } (Or.inl rfl),
         h.2.1 baseLedger 0 ⟨"bal-0", "INVALID", "SF"⟩ rfl,
         h.2.2.1 baseLedger 0 ⟨"bal-0", "INVALID", "SB"⟩ rfl,
         h.2.2.2.1 baseLedger ⟨"INVALID", [], 1, "SRC"⟩ rfl,
         h.2.2.2.2.1 baseLedger,
         h.2.2.2.2.2 baseLedger⟩

/-- C8: after a confirmed escrow creation (fresh transaction hash),
`getTransactionStatus` on the returned hash reports status success, echoes
that hash, and reports a strictly positive ledger number; on any hash
unknown to the ledger it fails with `NotFoundError`. -/
theorem getTransactionStatus_roundTrip (cfg : StellarConfig) (L : LedgerState)
    (now : Nat) (req : EscrowRequest) (res : EscrowResult)
    (hok : (createEscrow cfg L now req).res = Except.ok res)
    (hfresh : ∀ t ∈ L.transactions, t.hash ≠ newTxHash L) :
    ((getTransactionStatus (createEscrow cfg L now req).post
          res.transactionHash).res =
        .ok { status := .success, transactionHash := res.transactionHash,
              ledger := some (L.currentLedger + 1), resultCode := none } ∧
      0 < L.currentLedger + 1) ∧
    (∀ h2, (∀ t ∈ (createEscrow cfg L now req).post.transactions, t.hash ≠ h2) →
      (getTransactionStatus (createEscrow cfg L now req).post h2).res =
        .error .notFoundError) := by
  by_cases h1 : isValidPublicKey req.farmerPublicKey = true
  case neg => simp [createEscrow, h1] at hok
  by_cases h2 : isValidPublicKey req.buyerPublicKey = true
  case neg => simp [createEscrow, h1, h2] at hok
  by_cases h3 : positiveAmount req.amount = true
  case neg => simp [createEscrow, h1, h2, h3] at hok
  by_cases h4 : now < req.deadlineUnixTimestamp
  case neg => simp [createEscrow, h1, h2, h3, h4] at hok
  by_cases h5 : req.orderId = ""
  case pos => simp [createEscrow, h1, h2, h3, h4, h5] at hok
  cases hacct : lookupAccount L cfg.platformPublicKey with
  | none => simp [createEscrow, h1, h2, h3, h4, h5, hacct] at hok
  | some a =>
      simp only [createEscrow, h1, h2, h3, h4, h5, hacct, if_true, if_false,
        eq_self_iff_true, if_pos, if_neg] at hok ⊢
      simp only [Except.ok.injEq] at hok
      subst hok
      have hfind :
          List.find? (fun t => t.hash = newTxHash L)
            (L.transactions ++
              [{ hash := newTxHash L, status := .success,
                 ledger := L.currentLedger + 1, resultCode := none }]) =
          some { hash := newTxHash L, status := .success,
                 ledger := L.currentLedger + 1, resultCode := none } := by
        apply find?_append_singleton
        · intro y hy
          exact decide_eq_false (hfresh y hy)
        · simp
      refine ⟨⟨?_, Nat.succ_pos _⟩, ?_⟩
      · simp [getTransactionStatus, hfind]
      · intro hh hfr2
        have hnone :
            List.find? (fun t => t.hash = hh)
              (L.transactions ++
                [{ hash := newTxHash L, status := .success,
                   ledger := L.currentLedger + 1, resultCode := none }]) =
            none := by
          apply List.find?_eq_none.mpr
          intro x hx
          simpa using hfr2 x (by simpa using hx)
        simp [getTransactionStatus, hnone]

/-- C8 witness: creating the sample escrow on the sample ledger yields a
hash whose status query reports success at ledger 2, while an unrecorded
hash is `NotFoundError`. -/
theorem getTransactionStatus_roundTrip_witness :
    ((getTransactionStatus
          (createEscrow demoConfig baseLedger 0 demoEscrowRequest).post
          "tx-0").res =
        .ok { status := .success, transactionHash := "tx-0",
              ledger := some (baseLedger.currentLedger + 1),
              resultCode := none } ∧
      0 < baseLedger.currentLedger + 1) ∧
    (∀ h2, (∀ t ∈ (createEscrow demoConfig baseLedger 0
          demoEscrowRequest).post.transactions, t.hash ≠ h2) →
      (getTransactionStatus
          (createEscrow demoConfig baseLedger 0 demoEscrowRequest).post
          h2).res = .error .notFoundError) :=
  getTransactionStatus_roundTrip demoConfig baseLedger 0 demoEscrowRequest
    { balanceId := "bal-0", transactionHash := "tx-0", amount := "10",
      assetCode := "XLM", farmerPublicKey := demoFarmerKey,
      buyerPublicKey := demoBuyerKey }
    (by rfl) (by intro t ht; simp [baseLedger] at ht)

/-- C9: `CreateEscrowDto`'s transport-level check on
`deadlineUnixTimestamp` is `Min(0)` alone, so any non-negative deadline —
including 0 or one at or before the current wall-clock time — passes the
deadline check and, when the remaining fields satisfy their decorators,
passes whole-DTO validation and reaches the service layer; no
strictly-in-the-future comparison exists at this boundary (the validity
verdict does not depend on `now`). -/
theorem createEscrowDto_deadline_min_only (d : CreateEscrowDto) (now : Int)
    (hfa : isNotEmpty d.farmerPublicKey = true)
    (hfb : hasLength 56 56 d.farmerPublicKey = true)
    (hba : isNotEmpty d.buyerPublicKey = true)
    (hbb : hasLength 56 56 d.buyerPublicKey = true)
    (ham : isNotEmpty d.amount = true)
    (hor : isNotEmpty d.orderId = true)
    (hd0 : 0 ≤ d.deadlineUnixTimestamp)
    (_hpast : d.deadlineUnixTimestamp ≤ now) :
    minCheck 0 d.deadlineUnixTimestamp = true ∧
    createEscrowDtoValid d = true := by
  constructor
  · simpa [minCheck] using hd0
  · simp [createEscrowDtoValid, minCheck, hfa, hfb, hba, hbb, ham, hor, hd0]

/-- C9 witness: a concrete DTO with deadline 0 — in the past relative to
wall-clock 1700000000 — passes full DTO validation. -/
theorem createEscrowDto_deadline_min_only_witness :
    minCheck 0 (0 : Int) = true ∧
    createEscrowDtoValid
      { farmerPublicKey := demoFarmerKey, buyerPublicKey := demoBuyerKey,
        amount := "10", assetCode := none, assetIssuer := none,
        deadlineUnixTimestamp := 0, orderId := "order-9" } = true :=
  createEscrowDto_deadline_min_only
    { farmerPublicKey := demoFarmerKey, buyerPublicKey := demoBuyerKey,
      amount := "10", assetCode := none, assetIssuer := none,
      deadlineUnixTimestamp := 0, orderId := "order-9" }
    1700000000 (by decide) (by decide) (by decide) (by decide) (by decide)
    (by decide) (by decide) (by decide)

/-- C10: `SetupMultiSigDto.cosignerPublicKeys` carries no validation
decorator, so the DTO validity verdict is invariant under replacing that
field by any JSON value whatsoever (missing, empty, non-string or malformed
entries), and a request whose remaining fields satisfy their decorators
passes validation regardless of the cosigner payload. -/
theorem setupMultiSigDto_cosigners_unvalidated (d : SetupMultiSigDto)
    (c : Option JsValue)
    (hp1 : isNotEmpty d.primaryPublicKey = true)
    (hp2 : hasLength 56 56 d.primaryPublicKey = true)
    (hth : 1 ≤ d.threshold)
    (hsrc : isNotEmpty d.sourceSecretKey = true) :
    setupMultiSigDtoValid { d with cosignerPublicKeys := c } =
      setupMultiSigDtoValid d ∧
    setupMultiSigDtoValid { d with cosignerPublicKeys := c } = true := by
  constructor
  · rfl
  · simp [setupMultiSigDtoValid, minCheck, hp1, hp2, hth, hsrc]

/-- C10 witness: a DTO whose cosigner field holds a malformed JSON array
(a number, a null, and a wrong-length string) still passes validation, and
its verdict coincides with the same DTO carrying no cosigner field. -/
theorem setupMultiSigDto_cosigners_unvalidated_witness :
    setupMultiSigDtoValid
        { primaryPublicKey := demoFarmerKey,
          cosignerPublicKeys :=
            some (.arrVal [.numVal 5, .nullVal, .strVal "short"]),
          threshold := 2, sourceSecretKey := "SRC" } =
      setupMultiSigDtoValid
        { primaryPublicKey := demoFarmerKey, cosignerPublicKeys := none,
          threshold := 2, sourceSecretKey := "SRC" } ∧
    setupMultiSigDtoValid
        { primaryPublicKey := demoFarmerKey,
          cosignerPublicKeys :=
            some (.arrVal [.numVal 5, .nullVal, .strVal "short"]),
          threshold := 2, sourceSecretKey := "SRC" } = true :=
  setupMultiSigDto_cosigners_unvalidated
    { primaryPublicKey := demoFarmerKey, cosignerPublicKeys := none,
      threshold := 2, sourceSecretKey := "SRC" }
    (some (.arrVal [.numVal 5, .nullVal, .strVal "short"]))
    (by decide) (by decide) (by decide) (by decide)

end HarvestFinance
